import Mathlib

/-!
Verification of the generation lifecycle and disk-space-aware backup
orchestration engine of the `opa` repository.

The Python sources are shallowly embedded: pure computations become Lean
functions, filesystem state becomes explicit parameters (directory listings
as `List String`, file lookups as `String → Option _`), subprocess results
become explicit inputs, and Python exceptions become `Except` values.
Machine integers are modelled as `Int`/`Nat`; the float arithmetic of the
preflight space check is modelled exactly over `ℚ` (the literals 0.3, 1.2,
1.5 denote the corresponding rationals).
-/

namespace Opa

/-- Python's substring test `needle in hay`, on character lists:
some position of `hay` starts with `needle`. -/
def containsSub (hay needle : List Char) : Bool :=
  (List.range (hay.length + 1)).any fun i => needle.isPrefixOf (hay.drop i)

/-! ## store_manager.py : directory enumeration and retention cleanup -/

/-- `DIR_PREFIX = 'opa'` from store_manager.py. -/
def DIR_PREFIX : String := "opa"

/-- Matcher for the regular expression `opa_\d{8}-\d{6}$` applied at one
start position: consume `n` decimal digits, returning the rest. -/
def digitsN : Nat → List Char → Option (List Char)
  | 0, rest => some rest
  | _ + 1, [] => none
  | n + 1, c :: rest => if c.isDigit then digitsN n rest else none

/-- One anchored match attempt of `opa_\d{8}-\d{6}$`: the whole remaining
input must be `opa_`, eight digits, `-`, six digits, then end of string
(the `$` anchor). -/
def genAnchored (cs : List Char) : Bool :=
  match cs with
  | 'o' :: 'p' :: 'a' :: '_' :: rest =>
    match digitsN 8 rest with
    | some ('-' :: rest2) =>
      match digitsN 6 rest2 with
      | some [] => true
      | _ => false
    | _ => false
  | _ => false

/-- `re.search` of the fixed-length end-anchored pattern
`opa_\d{8}-\d{6}$`: a match starting at some position of the name. -/
def genSearch (cs : List Char) : Bool :=
  (List.range (cs.length + 1)).any fun i => genAnchored (cs.drop i)

/-- Filter of `_get_backup_dirs`: the basename came from
`glob.glob(os.path.join(backup_dir, "opa_*"))` (so it starts with
`opa_`) and passed `pattern.search` for `opa_\d{8}-\d{6}$`. -/
def isBackupDirName (name : String) : Bool :=
  (DIR_PREFIX ++ "_").data.isPrefixOf name.data && genSearch name.data

/-- Python string comparison: lexicographic on code points. -/
def strLeb (a b : String) : Bool :=
  charListLe a.data b.data
where
  charListLe : List Char → List Char → Bool
    | [], _ => true
    | _ :: _, [] => false
    | a :: as, b :: bs =>
      if a.toNat < b.toNat then true
      else if b.toNat < a.toNat then false
      else charListLe as bs

/-- `StoreManager._get_backup_dirs`: the entries under the backup root
matching the generation naming pattern, sorted oldest-first (ascending
by name; lexicographic order equals chronological order for the
fixed-width timestamp format).  The directory listing is the explicit
parameter `entries`. -/
def getBackupDirs (entries : List String) : List String :=
  (entries.filter isBackupDirName).mergeSort strLeb

/-- `StoreManager._cleanup(versions)`: if more generations exist than
`versions`, remove the surplus oldest ones and return their paths
(oldest first).  `versions` is a Python int, hence `Int`. -/
def cleanup (versions : Int) (entries : List String) : List String :=
  let backup_dirs := getBackupDirs entries
  if (backup_dirs.length : Int) > versions then
    let num_to_remove := (backup_dirs.length : Int) - versions
    backup_dirs.take num_to_remove.toNat
  else
    []

/-- `StoreManager.cleanup_before(versions)` = `_cleanup(versions - 1)`. -/
def cleanup_before (versions : Int) (entries : List String) : List String :=
  cleanup (versions - 1) entries

/-- `StoreManager.cleanup_after(versions)` = `_cleanup(versions)`. -/
def cleanup_after (versions : Int) (entries : List String) : List String :=
  cleanup versions entries

/-- C1: for existing generation directories of size C (entries matching the
generation pattern, sorted oldest-first) and every retention target R ≥ 0,
`_cleanup` removes exactly max(C − R, 0) oldest generations, returning them
oldest-first (a prefix of the sorted list), and removes none when R ≥ C;
`cleanup_before(N)` delegates with target N − 1 and `cleanup_after(N)` with
target N. -/
theorem cleanup_removes_surplus_oldest (entries : List String) (R N : Int)
    (hR : 0 ≤ R) :
    cleanup R entries = (getBackupDirs entries).take
      ((getBackupDirs entries).length - R.toNat) ∧
    ((cleanup R entries).length : Int) =
      max (((getBackupDirs entries).length : Int) - R) 0 ∧
    (((getBackupDirs entries).length : Int) ≤ R → cleanup R entries = []) ∧
    cleanup_before N entries = cleanup (N - 1) entries ∧
    cleanup_after N entries = cleanup N entries := by
  refine ⟨?_, ?_, ?_, rfl, rfl⟩
  · simp only [cleanup]
    split
    · next h =>
      congr 1
      omega
    · next h =>
      have : (getBackupDirs entries).length - R.toNat = 0 := by omega
      rw [this, List.take_zero]
  · simp only [cleanup]
    split
    · next h =>
      rw [List.length_take]
      omega
    · next h =>
      simp only [List.length_nil]
      omega
  · intro h
    simp only [cleanup]
    split
    · next h2 => omega
    · rfl

/-- Witness for C1 at a concrete input: three generations, target 1 —
the two oldest are removed, oldest first. -/
theorem cleanup_removes_surplus_oldest_witness :
    cleanup 1 ["opa_20240101-000000", "opa_20240102-000000",
               "opa_20240103-000000"] =
      (getBackupDirs ["opa_20240101-000000", "opa_20240102-000000",
                      "opa_20240103-000000"]).take
        ((getBackupDirs ["opa_20240101-000000", "opa_20240102-000000",
                         "opa_20240103-000000"]).length - (1 : Int).toNat) :=
  (cleanup_removes_surplus_oldest _ 1 0 (by decide)).1

/-! ## store_manager.py : constructor's generation directory name -/

/-- The datetime value observed by `datetime.now()`. -/
structure PyDateTime where
  year : Nat
  month : Nat
  day : Nat
  hour : Nat
  minute : Nat
  second : Nat

/-- Decimal digit character for the units digit of `k`. -/
def digitChar (k : Nat) : Char := Char.ofNat (48 + k % 10)

/-- Fixed-width zero-padded decimal rendering (width `w`), as produced by
the strftime conversions `%Y` (w = 4) and `%m %d %H %M %S` (w = 2) for
in-range field values. -/
def render (w n : Nat) : List Char :=
  (List.range w).reverse.map fun i => digitChar (n / 10 ^ i)

/-- `datetime.now().strftime("%Y%m%d-%H%M%S")` from `StoreManager.__init__`. -/
def timestampOf (t : PyDateTime) : List Char :=
  render 4 t.year ++ render 2 t.month ++ render 2 t.day ++
    '-' :: (render 2 t.hour ++ render 2 t.minute ++ render 2 t.second)

/-- The constructor's generation directory basename,
`f"{DIR_PREFIX}_{timestamp}"`. -/
def genDirName (t : PyDateTime) : String :=
  DIR_PREFIX ++ "_" ++ String.mk (timestampOf t)

theorem isDigit_digitChar (k : Nat) : (digitChar k).isDigit = true := by
  have h : k % 10 < 10 := Nat.mod_lt _ (by omega)
  unfold digitChar
  set m := k % 10 with hm
  interval_cases m <;> decide

theorem render_length (w n : Nat) : (render w n).length = w := by
  simp [render]

theorem render_all_digit (w n : Nat) :
    (render w n).all Char.isDigit = true := by
  simp only [render, List.all_eq_true, List.mem_map]
  rintro c ⟨i, -, rfl⟩
  exact isDigit_digitChar _

theorem digitsN_append (l rest : List Char) (h : l.all Char.isDigit = true) :
    digitsN l.length (l ++ rest) = some rest := by
  induction l with
  | nil => rfl
  | cons c l ih =>
    simp only [List.all_cons, Bool.and_eq_true] at h
    simp only [List.length_cons, List.cons_append, digitsN, h.1, if_true]
    exact ih h.2

theorem genAnchored_of_shape (mid tail : List Char) (hm : mid.length = 8)
    (hma : mid.all Char.isDigit = true) (ht : tail.length = 6)
    (hta : tail.all Char.isDigit = true) :
    genAnchored ('o' :: 'p' :: 'a' :: '_' :: (mid ++ '-' :: tail)) = true := by
  have h1 : digitsN 8 (mid ++ '-' :: tail) = some ('-' :: tail) := by
    rw [← hm]; exact digitsN_append mid _ hma
  have h2 : digitsN 6 tail = some [] := by
    have h3 := digitsN_append tail [] hta
    rw [List.append_nil, ht] at h3
    exact h3
  simp [genAnchored, h1, h2]

theorem data_genDirName (t : PyDateTime) :
    (genDirName t).data = 'o' :: 'p' :: 'a' :: '_' :: timestampOf t := rfl

/-- The directory name created by the store constructor matches the
generation naming pattern used by `_get_backup_dirs`. -/
theorem isBackupDirName_genDirName (t : PyDateTime) :
    isBackupDirName (genDirName t) = true := by
  unfold isBackupDirName
  rw [Bool.and_eq_true]
  constructor
  · rw [List.isPrefixOf_iff_prefix, data_genDirName]
    show "opa_".data <+: "opa_".data ++ timestampOf t
    exact List.prefix_append _ _
  · unfold genSearch
    apply List.any_eq_true.mpr
    refine ⟨0, List.mem_range.mpr (Nat.succ_pos _), ?_⟩
    rw [List.drop_zero, data_genDirName]
    have hshape : timestampOf t =
        (render 4 t.year ++ render 2 t.month ++ render 2 t.day) ++
          '-' :: (render 2 t.hour ++ render 2 t.minute ++ render 2 t.second) := by
      simp [timestampOf, List.append_assoc]
    rw [hshape]
    apply genAnchored_of_shape
    · simp [render_length]
    · simp [render_all_digit]
    · simp [render_length]
    · simp [render_all_digit]

/-- C10: the current generation directory is created during store
construction (its name matching the generation pattern), before any
pruning runs; `cleanup_before(1)` — retention 1 with pre-cleanup — prunes
to target 0 and removes every directory matching the generation pattern,
including the just-created current one. -/
theorem cleanup_before_default_removes_current (t : PyDateTime)
    (entries : List String) (h : genDirName t ∈ entries) :
    cleanup_before 1 entries = getBackupDirs entries ∧
    genDirName t ∈ cleanup_before 1 entries := by
  have hall : cleanup_before 1 entries = getBackupDirs entries := by
    simp only [cleanup_before, cleanup]
    norm_num
  refine ⟨hall, ?_⟩
  rw [hall]
  unfold getBackupDirs
  rw [List.mem_mergeSort]
  exact List.mem_filter.mpr ⟨h, isBackupDirName_genDirName t⟩

/-- Witness for C10: one just-created generation in the listing; pruning
with retention 1 before the backup removes it. -/
theorem cleanup_before_default_removes_current_witness :
    cleanup_before 1 [genDirName ⟨2024, 5, 6, 7, 8, 9⟩] =
      getBackupDirs [genDirName ⟨2024, 5, 6, 7, 8, 9⟩] ∧
    genDirName ⟨2024, 5, 6, 7, 8, 9⟩ ∈
      cleanup_before 1 [genDirName ⟨2024, 5, 6, 7, 8, 9⟩] :=
  cleanup_before_default_removes_current _ _ (List.mem_singleton.mpr rfl)

/-! ## xtrabackup.py : preflight space check and backup strategies -/

/-- The strategy flags of the configuration consulted by `XtraBackup`
(mutual exclusion is validated upstream in the config loader). -/
structure Config where
  streamcompress : Bool
  prepare : Bool
  tgz : Bool

/-- Message of `NotEnoughDiskSpaceError` raised by `_check_free_space`. -/
def notEnoughSpaceMsg : String := "Not enough free space in target directory."

/-- The `required_free_bytes` computation of `XtraBackup._check_free_space`:
30% of the source size for streamcompress, otherwise 120%, overridden to
150% when tgz archiving is configured. -/
def requiredFreeBytes (cfg : Config) (bytes_used : ℚ) : ℚ :=
  if cfg.streamcompress then bytes_used * 0.3
  else if cfg.tgz then bytes_used * 1.5
  else bytes_used * 1.2

/-- `XtraBackup._check_free_space`: raises `NotEnoughDiskSpaceError` when
the required bytes strictly exceed the free bytes of the current
generation directory, else returns `True`. -/
def check_free_space (cfg : Config) (bytes_used bytes_free : ℚ) :
    Except String Bool :=
  if requiredFreeBytes cfg bytes_used > bytes_free then
    Except.error notEnoughSpaceMsg
  else
    Except.ok true

/-- Outcome of one completed subprocess (`subprocess.run` with
`check=False`): exit code and the two captured output streams. -/
structure ProcResult where
  returncode : Int
  stdout : String
  stderr : String

/-- The completion marker text checked by the regular and prepare
strategies. -/
def marker : String := "completed OK!"

/-- `XtraBackup._execute_regular` as a function of the subprocess result:
a nonzero exit code fails first; otherwise the completion marker must
appear in stdout or stderr. -/
def execute_regular (r : ProcResult) : Bool :=
  if r.returncode ≠ 0 then false
  else if containsSub r.stdout.data marker.data ||
          containsSub r.stderr.data marker.data then true
  else false

/-- `XtraBackup._execute_prepare`: fails fast when the backup directory
from the regular step is missing, otherwise the same exit-code-then-marker
criterion as the regular strategy. -/
def execute_prepare (backup_dir_exists : Bool) (r : ProcResult) : Bool :=
  if !backup_dir_exists then false
  else if r.returncode ≠ 0 then false
  else if containsSub r.stdout.data marker.data ||
          containsSub r.stderr.data marker.data then true
  else false

/-- `XtraBackup._execute_streamcompress`: stdout is redirected to
`backup.xbstream` inside the current generation directory; success
requires exit code zero and that file existing with nonzero size.  `fs`
maps a path to the size of the file there (`none` = absent); stderr is
captured only for diagnostics. -/
def execute_streamcompress (current_dir : String) (returncode : Int)
    (fs : String → Option Nat) (stderr_output : String) : Bool :=
  if returncode ≠ 0 then false
  else
    match fs (current_dir ++ "/backup.xbstream") with
    | some size => if size > 0 then true else false
    | none => false

/-- C3: the regular and prepared strategies report success iff the exit
code is zero AND the marker text `completed OK!` appears in stdout or
stderr; zero exit without the marker is failure, the exit code is checked
first (nonzero exit is failure regardless of the marker), and the prepare
step applies the identical criterion once its target directory exists. -/
theorem regular_prepare_success_iff_marker (r : ProcResult) :
    (execute_regular r = true ↔
      r.returncode = 0 ∧ (containsSub r.stdout.data marker.data = true ∨
        containsSub r.stderr.data marker.data = true)) ∧
    execute_prepare true r = execute_regular r ∧
    (r.returncode ≠ 0 → execute_regular r = false) ∧
    (r.returncode = 0 → containsSub r.stdout.data marker.data = false →
      containsSub r.stderr.data marker.data = false →
      execute_regular r = false) := by
  refine ⟨?_, rfl, ?_, ?_⟩
  · unfold execute_regular
    by_cases h : r.returncode = 0 <;> simp [h]
  · intro h
    simp [execute_regular, h]
  · intro h h1 h2
    simp [execute_regular, h, h1, h2]

/-- Witness for C3: exit 0 with marker succeeds; exit 1 with marker still
fails; exit 0 without marker fails. -/
theorem regular_prepare_success_iff_marker_witness :
    execute_regular ⟨0, "xtrabackup: completed OK!", ""⟩ = true ∧
    execute_regular ⟨1, "xtrabackup: completed OK!", ""⟩ = false ∧
    execute_regular ⟨0, "almost done", ""⟩ = false :=
  ⟨(regular_prepare_success_iff_marker _).1.mpr ⟨rfl, Or.inl (by decide)⟩,
   (regular_prepare_success_iff_marker _).2.2.1 (by decide),
   (regular_prepare_success_iff_marker _).2.2.2 rfl (by decide) (by decide)⟩

/-- C4: the stream-compressed strategy reports success iff the exit code
is zero AND the `backup.xbstream` file inside the current generation
directory exists with nonzero size; the captured stderr (where a
completion marker could appear) does not influence the outcome. -/
theorem streamcompress_success_iff_output (current_dir : String)
    (returncode : Int) (fs : String → Option Nat) (stderr_output : String) :
    (execute_streamcompress current_dir returncode fs stderr_output = true ↔
      returncode = 0 ∧ ∃ size, fs (current_dir ++ "/backup.xbstream") =
        some size ∧ 0 < size) ∧
    (∀ other, execute_streamcompress current_dir returncode fs stderr_output =
      execute_streamcompress current_dir returncode fs other) := by
  refine ⟨?_, fun other => rfl⟩
  unfold execute_streamcompress
  by_cases h : returncode = 0 <;> simp [h]
  cases hf : fs (current_dir ++ "/backup.xbstream") with
  | none => simp
  | some size => by_cases hs : 0 < size <;> simp [hs]

/-! ## xtrabackup.py : the execute driver -/

/-- The `BackupResult` dataclass with its field defaults
(`successful=0, failed=0, total=1`, both skip flags `False`). -/
structure BackupResult where
  successful : Nat := 0
  failed : Nat := 0
  total : Nat := 1
  all_skipped_successfully : Bool := false
  all_skipped_faulty : Bool := false
deriving DecidableEq

/-- Outcome of one step inside `execute`'s try block: a boolean result, or
a Python exception escaping the step. -/
inductive StepOutcome
  | ok (success : Bool)
  | exc
deriving DecidableEq

/-- The environment of one `XtraBackup.execute` run: the outcome each step
would have if reached.  The boolean fields say whether the two
finalization calls (`store_backup_info`, `link_to_last_dir`) raise. -/
structure RunEnv where
  stream : StepOutcome
  regular : StepOutcome
  prep : StepOutcome
  tgzStep : StepOutcome
  store_info_raises : Bool
  link_raises : Bool

def liftStep : StepOutcome → Except Unit Bool
  | StepOutcome.ok b => Except.ok b
  | StepOutcome.exc => Except.error ()

/-- The strategy portion of `execute`'s try block: streamcompress alone,
or regular chained with optional prepare and optional tgz (each only when
the running `success` flag is still true). -/
def runStrategyChain (cfg : Config) (env : RunEnv) : Except Unit Bool :=
  if cfg.streamcompress then liftStep env.stream
  else do
    let s1 ← liftStep env.regular
    let s2 ← if s1 && cfg.prepare then liftStep env.prep else pure s1
    let s3 ← if s2 && cfg.tgz then liftStep env.tgzStep else pure s2
    pure s3

/-- Which state-changing effects a run performed. -/
structure RunEffects where
  stored_info : Bool := false
  linked_last : Bool := false
  removed_generation : Bool := false
deriving DecidableEq

/-- `XtraBackup.execute`: the preflight check runs first and its
insufficient-space error propagates (it is raised outside the try block);
then the strategy chain runs, and on success `store_backup_info` and
`link_to_last_dir` are called; every exception inside the try block is
caught and mapped to a failed result. -/
def execute (cfg : Config) (data_dir_bytes_used bytes_free : ℚ)
    (env : RunEnv) : Except String (BackupResult × RunEffects) :=
  match check_free_space cfg data_dir_bytes_used bytes_free with
  | Except.error e => Except.error e
  | Except.ok ok =>
    if !ok then Except.ok ({ failed := 1 }, {})
    else
      match runStrategyChain cfg env with
      | Except.error () => Except.ok ({ failed := 1, total := 1 }, {})
      | Except.ok false => Except.ok ({ failed := 1, total := 1 }, {})
      | Except.ok true =>
        if env.store_info_raises then
          Except.ok ({ failed := 1, total := 1 }, {})
        else if env.link_raises then
          Except.ok ({ failed := 1, total := 1 }, { stored_info := true })
        else
          Except.ok ({ successful := 1, total := 1 },
            { stored_info := true, linked_last := true })

/-- C2: the preflight raises the distinguished insufficient-space error
exactly when required > free (strict; equality passes), with required =
1.2×S for regular, 1.5×S for tgz-archived regular, and 0.3×S for
stream-compressed; when it fires, `execute` propagates the error without
consulting any subprocess outcome (the result is the same for every
environment), rather than converting it into a failed BackupResult. -/
theorem preflight_space_check_strict (cfg : Config) (S F : ℚ) :
    requiredFreeBytes cfg S =
      (if cfg.streamcompress then 0.3 * S
       else if cfg.tgz then 1.5 * S else 1.2 * S) ∧
    (check_free_space cfg S F = Except.error notEnoughSpaceMsg ↔
      requiredFreeBytes cfg S > F) ∧
    (requiredFreeBytes cfg S > F →
      ∀ env, execute cfg S F env = Except.error notEnoughSpaceMsg) ∧
    (requiredFreeBytes cfg S ≤ F →
      ∀ env, ∃ r, execute cfg S F env = Except.ok r) := by
  refine ⟨?_, ?_, ?_, ?_⟩
  · unfold requiredFreeBytes
    split_ifs <;> ring
  · unfold check_free_space
    split_ifs with h
    · simp [h]
    · simp [h]
  · intro h env
    unfold execute check_free_space
    rw [if_pos h]
  · intro h env
    unfold execute check_free_space
    rw [if_neg (not_lt.mpr h)]
    simp only [Bool.not_true, Bool.false_eq_true, if_false]
    rcases hc : runStrategyChain cfg env with e | b
    · exact ⟨_, rfl⟩
    · cases b
      · exact ⟨_, rfl⟩
      · by_cases h1 : env.store_info_raises <;>
          by_cases h2 : env.link_raises <;> simp [h1, h2]

/-- Witness for C2: regular strategy, S = 10.  With free = 12 the
requirement 1.2×10 = 12 equals free, so the boundary passes; with
free = 11 the run errors out for every environment. -/
theorem preflight_space_check_strict_witness :
    (∃ r, execute ⟨false, false, false⟩ 10 12
      ⟨StepOutcome.ok true, StepOutcome.ok true, StepOutcome.ok true,
       StepOutcome.ok true, false, false⟩ = Except.ok r) ∧
    execute ⟨false, false, false⟩ 10 11
      ⟨StepOutcome.ok true, StepOutcome.ok true, StepOutcome.ok true,
       StepOutcome.ok true, false, false⟩ = Except.error notEnoughSpaceMsg :=
  ⟨(preflight_space_check_strict ⟨false, false, false⟩ 10 12).2.2.2
      (by norm_num [requiredFreeBytes]) _,
   (preflight_space_check_strict ⟨false, false, false⟩ 10 11).2.2.1
      (by norm_num [requiredFreeBytes]) _⟩

/-- C9: every `BackupResult` produced by `execute` has total = 1, exactly
one of successful/failed equal to 1 (their sum equals total), and both
skip flags false; the only exception escaping `execute` is the preflight
insufficient-space error. -/
theorem execute_result_invariants (cfg : Config) (S F : ℚ) (env : RunEnv) :
    (execute cfg S F env = Except.error notEnoughSpaceMsg ∧
      requiredFreeBytes cfg S > F) ∨
    (∃ r eff, execute cfg S F env = Except.ok (r, eff) ∧ r.total = 1 ∧
      r.successful + r.failed = r.total ∧
      (r.successful = 1 ∨ r.failed = 1) ∧
      r.all_skipped_successfully = false ∧ r.all_skipped_faulty = false) := by
  by_cases h : requiredFreeBytes cfg S > F
  · refine Or.inl ⟨?_, h⟩
    unfold execute check_free_space
    rw [if_pos h]
  · right
    have hred : execute cfg S F env =
        (match runStrategyChain cfg env with
         | Except.error _ => Except.ok ({ failed := 1, total := 1 }, {})
         | Except.ok false => Except.ok ({ failed := 1, total := 1 }, {})
         | Except.ok true =>
           if env.store_info_raises then
             Except.ok ({ failed := 1, total := 1 }, {})
           else if env.link_raises then
             Except.ok ({ failed := 1, total := 1 }, { stored_info := true })
           else
             Except.ok ({ successful := 1, total := 1 },
               { stored_info := true, linked_last := true })) := by
      unfold execute check_free_space
      rw [if_neg h]
      rfl
    rw [hred]
    cases hc : runStrategyChain cfg env with
    | error e => exact ⟨_, _, rfl, rfl, rfl, Or.inr rfl, rfl, rfl⟩
    | ok b =>
      cases b
      · exact ⟨_, _, rfl, rfl, rfl, Or.inr rfl, rfl, rfl⟩
      · cases hsi : env.store_info_raises
        · cases hli : env.link_raises
          · exact ⟨_, _, rfl, rfl, rfl, Or.inl rfl, rfl, rfl⟩
          · exact ⟨_, _, rfl, rfl, rfl, Or.inr rfl, rfl, rfl⟩
        · exact ⟨_, _, rfl, rfl, rfl, Or.inr rfl, rfl, rfl⟩

/-! ## store_manager.py : the last / last.log pointers -/

/-- What occupies a filesystem path, as distinguished by the checks
`os.path.islink`, `os.path.isdir`, `os.path.exists`. -/
inductive FsEntry
  | absent
  | file
  | dir
  | symlink (target : String)
deriving DecidableEq

/-- The two pointer locations at the backup root. -/
structure PointerState where
  last : FsEntry
  last_log : FsEntry
deriving DecidableEq

/-- `StoreManager.link_to_last_dir`: for `last`, a symlink is unlinked, a
directory removed with rmtree, any other existing entry removed, then a
symlink to the current generation directory is created; for `last.log`,
an existing entry or symlink is removed with `os.unlink` — which raises
`IsADirectoryError` when a directory occupies that path — then a symlink
to the current generation's `opa.log` is created. -/
def link_to_last_dir (current_dir : String) (st : PointerState) :
    Except String PointerState :=
  let st1 : PointerState :=
    match st.last with
    | FsEntry.symlink _ => { st with last := FsEntry.absent }
    | FsEntry.dir => { st with last := FsEntry.absent }
    | FsEntry.file => { st with last := FsEntry.absent }
    | FsEntry.absent => st
  let st2 : PointerState := { st1 with last := FsEntry.symlink current_dir }
  match st2.last_log with
  | FsEntry.dir => Except.error "IsADirectoryError"
  | _ => Except.ok
      { st2 with last_log := FsEntry.symlink (current_dir ++ "/opa.log") }

/-- C5 counterexample: when a directory occupies the `last.log` pointer
location, `link_to_last_dir` raises instead of replacing it — contradicting
the claim that each pointer replacement first removes any pre-existing
file, directory, or symlink. -/
theorem link_lastlog_directory_counterexample :
    link_to_last_dir "gen"
      { last := FsEntry.absent, last_log := FsEntry.dir } =
      Except.error "IsADirectoryError" := rfl

/-- C5 (amended): on overall strategy success (with neither finalization
call raising) `execute` persists metadata and repoints both pointers; on
overall strategy failure it performs no finalization effect and leaves the
generation directory in place; the `last` pointer replacement removes any
pre-existing file, directory, or symlink, and the `last.log` replacement
removes a pre-existing file or symlink but raises when a directory
occupies that location. -/
theorem success_failure_frame_amended (cfg : Config) (S F : ℚ)
    (env : RunEnv) (current_dir : String) (st : PointerState) :
    (requiredFreeBytes cfg S ≤ F → runStrategyChain cfg env = Except.ok true →
      env.store_info_raises = false → env.link_raises = false →
      execute cfg S F env = Except.ok ({ successful := 1, total := 1 },
        { stored_info := true, linked_last := true,
          removed_generation := false })) ∧
    (requiredFreeBytes cfg S ≤ F →
      (runStrategyChain cfg env = Except.ok false ∨
        runStrategyChain cfg env = Except.error ()) →
      execute cfg S F env = Except.ok ({ failed := 1, total := 1 },
        { stored_info := false, linked_last := false,
          removed_generation := false })) ∧
    (st.last_log ≠ FsEntry.dir →
      link_to_last_dir current_dir st = Except.ok
        { last := FsEntry.symlink current_dir,
          last_log := FsEntry.symlink (current_dir ++ "/opa.log") }) ∧
    (st.last_log = FsEntry.dir →
      link_to_last_dir current_dir st = Except.error "IsADirectoryError") := by
  have hred : requiredFreeBytes cfg S ≤ F → execute cfg S F env =
      (match runStrategyChain cfg env with
       | Except.error _ => Except.ok ({ failed := 1, total := 1 }, {})
       | Except.ok false => Except.ok ({ failed := 1, total := 1 }, {})
       | Except.ok true =>
         if env.store_info_raises then
           Except.ok ({ failed := 1, total := 1 }, {})
         else if env.link_raises then
           Except.ok ({ failed := 1, total := 1 }, { stored_info := true })
         else
           Except.ok ({ successful := 1, total := 1 },
             { stored_info := true, linked_last := true })) := by
    intro hF
    unfold execute check_free_space
    rw [if_neg (not_lt.mpr hF)]
    rfl
  obtain ⟨l, ll⟩ := st
  refine ⟨?_, ?_, ?_, ?_⟩
  · intro hF hs h1 h2
    rw [hred hF, hs, if_neg (by rw [h1]; exact Bool.false_ne_true),
      if_neg (by rw [h2]; exact Bool.false_ne_true)]
  · intro hF hs
    rcases hs with hs | hs <;> rw [hred hF, hs]
  · intro hne
    cases l <;> cases ll <;>
      first
      | rfl
      | exact absurd rfl hne
  · intro hd
    cases hd
    cases l <;> rfl

/-- Witness for C5 (amended): a concrete successful regular run persists
metadata and repoints; a failed run has no effects; concrete pointer
states show the file-replacement and the directory error on last.log. -/
theorem success_failure_frame_amended_witness :
    execute ⟨false, false, false⟩ 0 0
      ⟨StepOutcome.ok true, StepOutcome.ok true, StepOutcome.ok true,
       StepOutcome.ok true, false, false⟩ =
      Except.ok ({ successful := 1, total := 1 },
        { stored_info := true, linked_last := true,
          removed_generation := false }) ∧
    execute ⟨false, false, false⟩ 0 0
      ⟨StepOutcome.ok true, StepOutcome.ok false, StepOutcome.ok true,
       StepOutcome.ok true, false, false⟩ =
      Except.ok ({ failed := 1, total := 1 },
        { stored_info := false, linked_last := false,
          removed_generation := false }) ∧
    link_to_last_dir "gen" { last := FsEntry.file, last_log := FsEntry.file } =
      Except.ok { last := FsEntry.symlink "gen",
                  last_log := FsEntry.symlink ("gen" ++ "/opa.log") } ∧
    link_to_last_dir "gen" { last := FsEntry.file, last_log := FsEntry.dir } =
      Except.error "IsADirectoryError" :=
  ⟨(success_failure_frame_amended ⟨false, false, false⟩ 0 0 _ "gen"
      ⟨FsEntry.file, FsEntry.file⟩).1 (by norm_num [requiredFreeBytes])
      rfl rfl rfl,
   (success_failure_frame_amended ⟨false, false, false⟩ 0 0 _ "gen"
      ⟨FsEntry.file, FsEntry.file⟩).2.1 (by norm_num [requiredFreeBytes])
      (Or.inl rfl),
   (success_failure_frame_amended ⟨false, false, false⟩ 0 0
      ⟨StepOutcome.ok true, StepOutcome.ok true, StepOutcome.ok true,
       StepOutcome.ok true, false, false⟩ "gen"
      ⟨FsEntry.file, FsEntry.file⟩).2.2.1 (by decide),
   (success_failure_frame_amended ⟨false, false, false⟩ 0 0
      ⟨StepOutcome.ok true, StepOutcome.ok true, StepOutcome.ok true,
       StepOutcome.ok true, false, false⟩ "gen"
      ⟨FsEntry.file, FsEntry.dir⟩).2.2.2 rfl⟩

/-! ## store_manager.py : backup metadata and per-item timestamps -/

/-- The `BackupInfo` dataclass persisted as `info.json`. -/
structure BackupInfo where
  mysql_data_dir_bytes_used : Int
  backup_bytes_used : Int
  compression_ratio : ℚ
deriving DecidableEq

/-- `StoreManager.store_backup_info`: the record written to `info.json`
for the current generation, with
`compression_ratio = backup_bytes_used / mysql_data_dir_bytes_used` when
the source size is nonzero, else 0.  `backup_bytes_used` is the refreshed
bytes-used figure of the current generation directory. -/
def store_backup_info (mysql_data_dir_bytes_used backup_bytes_used : Int) :
    BackupInfo :=
  { mysql_data_dir_bytes_used := mysql_data_dir_bytes_used
    backup_bytes_used := backup_bytes_used
    compression_ratio :=
      if mysql_data_dir_bytes_used ≠ 0 then
        (backup_bytes_used : ℚ) / (mysql_data_dir_bytes_used : ℚ)
      else 0 }

/-- `StoreManager.get_backup_info`: read `info.json` from the previous
generation directory; a missing file (`FileNotFoundError`) yields the
default record `BackupInfo(0, 0, 0.5)`.  The file's content is the
persisted record (`json.dumps` of the dataclass fields, read back with
`BackupInfo(**json.load(f))`). -/
def get_backup_info (info_json : Option BackupInfo) : BackupInfo :=
  match info_json with
  | some info => info
  | none => ⟨0, 0, 0.5⟩

/-- A `datetime.datetime` value (second resolution, as stored by
`datetime.isoformat` / `fromisoformat` round-trips in this code). -/
structure PyTimestamp where
  year : Nat
  month : Nat
  day : Nat
  hour : Nat
  minute : Nat
  second : Nat
deriving DecidableEq

/-- `StoreManager.get_database_backup_time`: read
`<database>.timestamp` from the previous generation directory; a missing
file yields the sentinel `datetime(1900, 1, 1, 0, 0, 0)`.  `files` maps a
file name to the timestamp it holds. -/
def get_database_backup_time (files : String → Option PyTimestamp)
    (database : String) : PyTimestamp :=
  match files (database ++ ".timestamp") with
  | some t => t
  | none => ⟨1900, 1, 1, 0, 0, 0⟩

/-- C6: stored metadata records compression ratio backup/source — so
ratio × source = backup whenever source ≠ 0 — and exactly 0 when the
source size is 0 (no division error); writing the three fields and
reading them back yields the same record. -/
theorem compression_ratio_roundtrip (S B : Int) :
    (store_backup_info S B).mysql_data_dir_bytes_used = S ∧
    (store_backup_info S B).backup_bytes_used = B ∧
    (S ≠ 0 → (store_backup_info S B).compression_ratio * (S : ℚ) = (B : ℚ)) ∧
    (S = 0 → (store_backup_info S B).compression_ratio = 0) ∧
    get_backup_info (some (store_backup_info S B)) = store_backup_info S B := by
  refine ⟨rfl, rfl, ?_, ?_, rfl⟩
  · intro h
    have hq : (S : ℚ) ≠ 0 := Int.cast_ne_zero.mpr h
    simp only [store_backup_info, if_pos h]
    exact div_mul_cancel₀ _ hq
  · intro h
    simp [store_backup_info, h]

/-- Witness for C6: source 4, backup 2 gives ratio satisfying
ratio × 4 = 2; source 0 gives ratio 0. -/
theorem compression_ratio_roundtrip_witness :
    (store_backup_info 4 2).compression_ratio * ((4 : Int) : ℚ) =
      ((2 : Int) : ℚ) ∧
    (store_backup_info 0 7).compression_ratio = 0 :=
  ⟨(compression_ratio_roundtrip 4 2).2.2.1 (by decide),
   (compression_ratio_roundtrip 0 7).2.2.2.1 rfl⟩

/-- C7: with no `info.json` in the previous generation, reading backup
metadata returns the default record (0 source bytes, 0 backup bytes,
ratio 0.5); with no `<item>.timestamp` file, reading the per-item backup
time returns the sentinel 1900-01-01 00:00:00 — absence is data, not an
error. -/
theorem missing_metadata_defaults (files : String → Option PyTimestamp)
    (database : String) :
    get_backup_info none = ⟨0, 0, 0.5⟩ ∧
    (files (database ++ ".timestamp") = none →
      get_database_backup_time files database = ⟨1900, 1, 1, 0, 0, 0⟩) := by
  refine ⟨rfl, ?_⟩
  intro h
  simp [get_database_backup_time, h]

/-- Witness for C7: an empty previous generation (no files at all). -/
theorem missing_metadata_defaults_witness :
    get_backup_info none = ⟨0, 0, 0.5⟩ ∧
    get_database_backup_time (fun _ => none) "mydb" = ⟨1900, 1, 1, 0, 0, 0⟩ :=
  ⟨(missing_metadata_defaults (fun _ => none) "mydb").1,
   (missing_metadata_defaults (fun _ => none) "mydb").2 rfl⟩

/-! ## xtrabackup_info.py : compatibility validation -/

def _BASE_24 : String :=
  "https://downloads.percona.com/downloads/Percona-XtraBackup-2.4/Percona-XtraBackup-2.4.29/binary/debian"

def _BASE_80 : String :=
  "https://downloads.percona.com/downloads/Percona-XtraBackup-8.0/Percona-XtraBackup-8.0.35-33/binary/debian"

def _BASE_82 : String :=
  "https://downloads.percona.com/downloads/Percona-XtraBackup-innovative-release/Percona-XtraBackup-8.2.0-1/binary/debian"

def _BASE_84 : String :=
  "https://downloads.percona.com/downloads/Percona-XtraBackup-8.4/Percona-XtraBackup-8.4.0-3/binary/debian"

/-- `XTRABACKUP_VERSION_MAP["debian"]["11"]["mysql"]`. -/
def mysqlMapBullseye : String → Option String
  | "5.6" => some (_BASE_24 ++ "/bullseye/x86_64/percona-xtrabackup-24_2.4.29-1.bullseye_amd64.deb")
  | "5.7" => some (_BASE_24 ++ "/bullseye/x86_64/percona-xtrabackup-24_2.4.29-1.bullseye_amd64.deb")
  | "8.0" => some (_BASE_80 ++ "/bullseye/x86_64/percona-xtrabackup-80_8.0.35-33-1.bullseye_amd64.deb")
  | "8.2" => some (_BASE_82 ++ "/bullseye/x86_64/percona-xtrabackup-82_8.2.0-1-1.bullseye_amd64.deb")
  | "8.4" => some (_BASE_84 ++ "/bullseye/x86_64/percona-xtrabackup-84_8.4.0-3-1.bullseye_amd64.deb")
  | _ => none

/-- `XTRABACKUP_VERSION_MAP["debian"]["12"]["mysql"]`. -/
def mysqlMapBookworm : String → Option String
  | "5.6" => some (_BASE_24 ++ "/bookworm/x86_64/percona-xtrabackup-24_2.4.29-1.bookworm_amd64.deb")
  | "5.7" => some (_BASE_24 ++ "/bookworm/x86_64/percona-xtrabackup-24_2.4.29-1.bookworm_amd64.deb")
  | "8.0" => some (_BASE_80 ++ "/bookworm/x86_64/percona-xtrabackup-80_8.0.35-33-1.bookworm_amd64.deb")
  | "8.2" => some (_BASE_82 ++ "/bookworm/x86_64/percona-xtrabackup-82_8.2.0-1-1.bookworm_amd64.deb")
  | "8.4" => some (_BASE_84 ++ "/bookworm/x86_64/percona-xtrabackup-84_8.4.0-3-1.bookworm_amd64.deb")
  | _ => none

/-- `XTRABACKUP_VERSION_MAP["ubuntu"]["20.04"]["mysql"]`. -/
def mysqlMapFocal : String → Option String
  | "5.6" => some (_BASE_24 ++ "/focal/x86_64/percona-xtrabackup-24_2.4.29-1.focal_amd64.deb")
  | "5.7" => some (_BASE_24 ++ "/focal/x86_64/percona-xtrabackup-24_2.4.29-1.focal_amd64.deb")
  | "8.0" => some (_BASE_80 ++ "/focal/x86_64/percona-xtrabackup-80_8.0.35-33-1.focal_amd64.deb")
  | "8.2" => some (_BASE_82 ++ "/focal/x86_64/percona-xtrabackup-82_8.2.0-1-1.focal_amd64.deb")
  | "8.4" => some (_BASE_84 ++ "/focal/x86_64/percona-xtrabackup-84_8.4.0-3-1.focal_amd64.deb")
  | _ => none

/-- `XTRABACKUP_VERSION_MAP["ubuntu"]["22.04"]["mysql"]`. -/
def mysqlMapJammy : String → Option String
  | "5.6" => some (_BASE_24 ++ "/jammy/x86_64/percona-xtrabackup-24_2.4.29-1.jammy_amd64.deb")
  | "5.7" => some (_BASE_24 ++ "/jammy/x86_64/percona-xtrabackup-24_2.4.29-1.jammy_amd64.deb")
  | "8.0" => some (_BASE_80 ++ "/jammy/x86_64/percona-xtrabackup-80_8.0.35-33-1.jammy_amd64.deb")
  | "8.2" => some (_BASE_82 ++ "/jammy/x86_64/percona-xtrabackup-82_8.2.0-1-1.jammy_amd64.deb")
  | "8.4" => some (_BASE_84 ++ "/jammy/x86_64/percona-xtrabackup-84_8.4.0-3-1.jammy_amd64.deb")
  | _ => none

/-- `XTRABACKUP_VERSION_MAP["ubuntu"]["24.04"]["mysql"]` (5.6/5.7 and 8.2
use the jammy packages, as noted in the source). -/
def mysqlMapNoble : String → Option String
  | "5.6" => some (_BASE_24 ++ "/jammy/x86_64/percona-xtrabackup-24_2.4.29-1.jammy_amd64.deb")
  | "5.7" => some (_BASE_24 ++ "/jammy/x86_64/percona-xtrabackup-24_2.4.29-1.jammy_amd64.deb")
  | "8.0" => some (_BASE_80 ++ "/noble/x86_64/percona-xtrabackup-80_8.0.35-33-1.noble_amd64.deb")
  | "8.2" => some (_BASE_82 ++ "/jammy/x86_64/percona-xtrabackup-82_8.2.0-1-1.jammy_amd64.deb")
  | "8.4" => some (_BASE_84 ++ "/noble/x86_64/percona-xtrabackup-84_8.4.0-3-1.noble_amd64.deb")
  | _ => none

/-- `get_xtrabackup_download_url`: nested lookup distro → distro version →
mysql version, `None` at any missing level. -/
def get_xtrabackup_download_url (mysql_version distro_name distro_version :
    String) : Option String :=
  if distro_name = "debian" then
    if distro_version = "11" then mysqlMapBullseye mysql_version
    else if distro_version = "12" then mysqlMapBookworm mysql_version
    else none
  else if distro_name = "ubuntu" then
    if distro_version = "20.04" then mysqlMapFocal mysql_version
    else if distro_version = "22.04" then mysqlMapJammy mysql_version
    else if distro_version = "24.04" then mysqlMapNoble mysql_version
    else none
  else none

/-- `get_required_xtrabackup_version`: 5.6/5.7 → 2.4; 8.0 → 8.0;
8.2 → 8.2; 8.4 → 8.4; anything else → `None`. -/
def get_required_xtrabackup_version (mysql_version : String) :
    Option String :=
  if mysql_version = "5.6" ∨ mysql_version = "5.7" then some "2.4"
  else if mysql_version = "8.0" then some "8.0"
  else if mysql_version = "8.2" then some "8.2"
  else if mysql_version = "8.4" then some "8.4"
  else none

/-- `validate_xtrabackup_version`: the installed tool version (from
`get_xtrabackup_version`, `None` when the binary was not found) and the
distro info (from `get_distro_info`) are the results of the effectful
queries, passed as inputs. -/
def validate_xtrabackup_version (mysql_version xtrabackup_bin : String)
    (xtrabackup_version : Option String)
    (distro_name distro_version : String) : Bool × String × Option String :=
  match xtrabackup_version with
  | none =>
    match get_required_xtrabackup_version mysql_version with
    | some required_version =>
      match get_xtrabackup_download_url mysql_version distro_name
          distro_version with
      | some download_url =>
        (false, "XtraBackup not found at \'" ++ xtrabackup_bin ++
          "\'. Download XtraBackup " ++ required_version ++ " for MySQL " ++
          mysql_version ++ " from: " ++ download_url, some download_url)
      | none =>
        (false, "XtraBackup not found at \'" ++ xtrabackup_bin ++ "\'", none)
    | none =>
      (false, "XtraBackup not found at \'" ++ xtrabackup_bin ++ "\'", none)
  | some xv =>
    match get_required_xtrabackup_version mysql_version with
    | none =>
      (false, "MySQL version " ++ mysql_version ++
        " unknown, extend XTRABACKUP_VERSION_MAP in xtrabackup_info.py or disable check_xtrabackup_version in the opa.conf",
        none)
    | some required_version =>
      if xv = required_version then
        (true, "XtraBackup " ++ xv ++ " is compatible with MySQL " ++
          mysql_version, none)
      else if distro_name = "unknown" ∨ distro_version = "unknown" then
        (false, "XtraBackup " ++ xv ++ " is not compatible with MySQL " ++
          mysql_version ++ ". Required version: " ++ required_version ++
          ". Linux distribution unknown, extend XTRABACKUP_VERSION_MAP in xtrabackup_info.py or disable check_xtrabackup_version in the opa.conf",
          none)
      else
        match get_xtrabackup_download_url mysql_version distro_name
            distro_version with
        | none =>
          (false, "XtraBackup " ++ xv ++ " is not compatible with MySQL " ++
            mysql_version ++ ". Required version: " ++ required_version ++
            ". Distribution " ++ distro_name ++ " " ++ distro_version ++
            " or MySQL " ++ mysql_version ++
            " not found in XTRABACKUP_VERSION_MAP, extend it or disable check_xtrabackup_version in the opa.conf",
            none)
        | some download_url =>
          (false, "XtraBackup " ++ xv ++ " is not compatible with MySQL " ++
            mysql_version ++ ". Required version: " ++ required_version ++
            ". Download the correct version from: " ++ download_url,
            some download_url)

set_option maxRecDepth 40000 in
/-- C8 counterexample: for the unmapped database version "10.6" with the
tool missing, validation fails but the message is only the not-found
notice — it does not reference extending the compatibility table, so the
"regardless of the tool version" part of the claim is false. -/
theorem validate_unmapped_missing_tool_counterexample :
    (validate_xtrabackup_version "10.6" "xtrabackup" none "debian" "11").1 =
      false ∧
    (validate_xtrabackup_version "10.6" "xtrabackup" none "debian" "11").2.1 =
      "XtraBackup not found at \'xtrabackup\'" ∧
    containsSub (validate_xtrabackup_version "10.6" "xtrabackup" none
      "debian" "11").2.1.data "extend".data = false :=
  ⟨rfl, rfl, by decide⟩

set_option maxRecDepth 40000 in
/-- C8 (amended): database "8.0" with tool "8.0" passes with a message
containing "compatible" (for every binary path and distro); database
"8.0" with the tool missing on the known combination debian 11 fails with
a message containing "not found" and the download URL (also returned as
the locator); unmapped database "10.6" always fails, and whenever a tool
version was determined the message references extending the compatibility
table — with the tool missing it fails with only the not-found notice. -/
theorem validate_versions_amended :
    (∀ bin dn dv,
      (validate_xtrabackup_version "8.0" bin (some "8.0") dn dv).1 = true ∧
      containsSub (validate_xtrabackup_version "8.0" bin (some "8.0") dn
        dv).2.1.data "compatible".data = true) ∧
    ((validate_xtrabackup_version "8.0" "xtrabackup" none "debian" "11").1 =
      false ∧
     containsSub (validate_xtrabackup_version "8.0" "xtrabackup" none
       "debian" "11").2.1.data "not found".data = true ∧
     (validate_xtrabackup_version "8.0" "xtrabackup" none "debian"
       "11").2.2 = some (_BASE_80 ++
       "/bullseye/x86_64/percona-xtrabackup-80_8.0.35-33-1.bullseye_amd64.deb") ∧
     containsSub (validate_xtrabackup_version "8.0" "xtrabackup" none
       "debian" "11").2.1.data (_BASE_80 ++
       "/bullseye/x86_64/percona-xtrabackup-80_8.0.35-33-1.bullseye_amd64.deb").data =
       true) ∧
    (∀ v bin dn dv,
      (validate_xtrabackup_version "10.6" bin (some v) dn dv).1 = false ∧
      containsSub (validate_xtrabackup_version "10.6" bin (some v) dn
        dv).2.1.data "extend".data = true) ∧
    (∀ bin dn dv,
      (validate_xtrabackup_version "10.6" bin none dn dv).1 = false) := by
  refine ⟨fun bin dn dv => ⟨rfl, ?_⟩, ⟨rfl, by decide, rfl, by decide⟩,
    fun v bin dn dv => ⟨rfl, ?_⟩, fun bin dn dv => rfl⟩
  · show containsSub ("XtraBackup " ++ "8.0" ++ " is compatible with MySQL " ++
      "8.0").data "compatible".data = true
    decide
  · show containsSub ("MySQL version " ++ "10.6" ++
      " unknown, extend XTRABACKUP_VERSION_MAP in xtrabackup_info.py or disable check_xtrabackup_version in the opa.conf").data
      "extend".data = true
    decide

end Opa
